import Mathlib

/-!
Shallow embedding of the authorization subsystem of the GRN-PROD equipment
rental application.

Sources embedded here:
* `src/lib/auth-utils.ts` — `authenticateUser`, `checkUserRole`,
  `checkProjectAccess`, `checkPurchaseOrderAccess`,
  `checkDeliveryNoteItemAccess`;
* `supabase/migrations/20250612000001_fix_rls_security_policies.sql` — the
  storage-side predicate `can_access_project`;
* `netlify/functions/process-return.ts` — the return-processing handler;
* `src/lib/validation-schemas.ts` — `returnProcessSchema`.

Database rows are modelled as association lists keyed by id (ids are the
UUID strings of the schema).  A PostgREST `.eq('id', x).single()` call
succeeds exactly when the filter matches exactly one row; this is
`lookupSingle` below.  The supabase-js client reports failures through the
returned `error` field rather than by throwing, and every embedded function
is total, returning `false` on every failure path exactly as the
`if (error || !data) return false` / `catch { return false }` code does.
-/

/-- The `user_role` enum of the schema: `('admin', 'manager', 'user')`. -/
inductive Role where
  | admin
  | manager
  | user
deriving DecidableEq, Repr

instance : LawfulBEq Role where
  eq_of_beq := by intro a b h; cases a <;> cases b <;> first | rfl | exact absurd h (by decide)
  rfl := by intro a; cases a <;> rfl

/-- The `dn_item_status` enum: `('delivered', 'partial_return', 'fully_returned')`. -/
inductive DnItemStatus where
  | delivered
  | partial_return
  | fully_returned
deriving DecidableEq, Repr

/-- The authorization-relevant column of `public.projects`. -/
structure ProjectRow where
  created_by : String
deriving DecidableEq, Repr

/-- The authorization-relevant column of `public.purchase_orders`. -/
structure PurchaseOrderRow where
  project_id : String
deriving DecidableEq, Repr

/-- The authorization-relevant column of `public.delivery_notes`. -/
structure DeliveryNoteRow where
  purchase_order_id : String
deriving DecidableEq, Repr

/-- The columns of `public.dn_items` used by the access chain and by
`process-return.ts`.  Timestamps (`created_at`, `returned_at`) are modelled
as integers; `new Date(a) < new Date(b)` becomes integer `<`. -/
structure DnItemRow where
  delivery_note_id : String
  delivered_quantity : Int
  returned_quantity : Int
  status : DnItemStatus
  created_at : Int
  returned_at : Option Int
deriving DecidableEq, Repr

/-- The columns of `public.audit_logs` written by `process-return.ts`. -/
structure AuditLogRow where
  user_id : String
  action : String
  table_name : String
  record_id : String
deriving DecidableEq, Repr

/-- The relational store: each table is an association list from the row's
UUID primary key to its authorization-relevant columns. -/
structure Store where
  users : List (String × Role)
  projects : List (String × ProjectRow)
  purchase_orders : List (String × PurchaseOrderRow)
  delivery_notes : List (String × DeliveryNoteRow)
  dn_items : List (String × DnItemRow)
  audit_logs : List AuditLogRow
deriving DecidableEq, Repr

/-- `.eq('id', id).single()`: PostgREST `.single()` yields a row exactly
when the filter matches exactly one row, and an error object otherwise. -/
def lookupSingle {α : Type} (table : List (String × α)) (id : String) : Option α :=
  match table.filter (fun row => row.1 == id) with
  | [row] => some row.2
  | _ => none

/-- Outcome of an awaited supabase-js `.single()` query as seen by callers:
a data row, an error result (no rows / store error reported through the
returned `error` field), or a thrown exception caught by `try/catch`. -/
inductive QueryResult (α : Type) where
  | row (a : α)
  | errorResult (msg : String)
  | thrown (msg : String)
deriving DecidableEq, Repr

/-- A pure store lookup never throws: a missing row surfaces as the
PostgREST no-rows error result. -/
def queryOf {α : Type} (o : Option α) : QueryResult α :=
  match o with
  | some a => QueryResult.row a
  | none => QueryResult.errorResult "PGRST116"

/-- Outcome of the awaited `supabase.auth.getUser()` call: either the
promise resolved with `{ data: { user }, error }`, or it rejected. -/
inductive GetUserResult where
  | returned (error : Option String) (user : Option String)
  | threw
deriving DecidableEq, Repr

/-- The result object of `authenticateUser` in `auth-utils.ts`. -/
structure AuthResult where
  success : Bool
  error : Option String
  user : Option String
deriving DecidableEq, Repr

/-- `authenticateUser` (auth-utils.ts lines 51-63): on
`if (error || !user)` it fails with `'Authentication required'`; a thrown
exception is caught and fails with `'Invalid authentication token'`;
otherwise it succeeds with the user and a null error. -/
def authenticateUser : GetUserResult → AuthResult
  | GetUserResult.returned e u =>
      if e.isSome || u.isNone then
        { success := false, error := some "Authentication required", user := none }
      else
        { success := true, error := none, user := u }
  | GetUserResult.threw =>
      { success := false, error := some "Invalid authentication token", user := none }

/-- The body of `checkUserRole` (auth-utils.ts lines 66-82) as a function of
the raw query outcome: `if (error || !userData) return false`, a caught
exception returns `false`, otherwise `requiredRoles.includes(userData.role)`. -/
def checkUserRoleResult (q : QueryResult Role) (requiredRoles : List Role) : Bool :=
  match q with
  | QueryResult.row r => requiredRoles.contains r
  | QueryResult.errorResult _ => false
  | QueryResult.thrown _ => false

/-- `checkUserRole` against a store: one `.from('users').select('role')
.eq('id', userId).single()` query, then the role-membership test. -/
def checkUserRole (s : Store) (userId : String) (requiredRoles : List Role) : Bool :=
  checkUserRoleResult (queryOf (lookupSingle s.users userId)) requiredRoles

/-- `checkProjectAccess` (auth-utils.ts lines 85-106): first
`checkUserRole(userId, ['admin', 'manager'])` and return `true` on success,
then look up the project's `created_by` and compare it to `userId`; every
failure path returns `false`. -/
def checkProjectAccess (s : Store) (userId : String) (projectId : String) : Bool :=
  if checkUserRole s userId [Role.admin, Role.manager] then true
  else
    match lookupSingle s.projects projectId with
    | some project => project.created_by == userId
    | none => false

/-- `checkPurchaseOrderAccess` (auth-utils.ts lines 109-127): look up the
PO's `project_id`, then delegate to `checkProjectAccess`; a missing PO
returns `false`. -/
def checkPurchaseOrderAccess (s : Store) (userId : String) (poId : String) : Bool :=
  match lookupSingle s.purchase_orders poId with
  | some po => checkProjectAccess s userId po.project_id
  | none => false

/-- The single joined query of `checkDeliveryNoteItemAccess`:
`.from('dn_items').select('delivery_notes!inner(purchase_order_id)')
.eq('id', dnItemId).single()` — one query on `dn_items` with an inner join
to `delivery_notes`, producing the `purchase_order_id` of the item's
delivery note when both rows resolve. -/
def dnItemJoinQuery (s : Store) (dnItemId : String) : Option String :=
  match lookupSingle s.dn_items dnItemId with
  | some item =>
      (lookupSingle s.delivery_notes item.delivery_note_id).map
        (fun dn => dn.purchase_order_id)
  | none => none

/-- `checkDeliveryNoteItemAccess` (auth-utils.ts lines 130-150): the joined
query above, then delegation to `checkPurchaseOrderAccess`; every failure
path returns `false`. -/
def checkDeliveryNoteItemAccess (s : Store) (userId : String) (dnItemId : String) : Bool :=
  match dnItemJoinQuery s dnItemId with
  | some poId => checkPurchaseOrderAccess s userId poId
  | none => false

/-- The storage-side `can_access_project(project_id uuid)` of migration
20250612000001 (lines 49-63), with `auth.uid()` passed explicitly:
`EXISTS (SELECT 1 FROM projects p JOIN users u ON u.id = auth.uid()
WHERE p.id = project_id AND (p.created_by = auth.uid() OR u.role IN
('admin','manager')))`. -/
def can_access_project (s : Store) (uid : String) (project_id : String) : Bool :=
  s.projects.any (fun p =>
    p.1 == project_id &&
    s.users.any (fun u =>
      u.1 == uid &&
      (p.2.created_by == uid || (u.2 == Role.admin || u.2 == Role.manager))))

/-- The raw body of a process-return request, as seen by
`returnProcessSchema` (validation-schemas.ts lines 126-133).  String-format
checks (`uuidSchema`, `dateSchema`) are abstracted as boolean flags of the
raw input; `returnDate` carries the timestamp the valid date string denotes. -/
structure RawReturnBody where
  dnItemId : String
  dnItemIdIsUuid : Bool
  returnedQuantity : Int
  returnDate : Int
  returnDateIsDatetime : Bool
deriving DecidableEq, Repr

/-- The parsed data produced by a successful validation. -/
structure ReturnData where
  dnItemId : String
  returnedQuantity : Int
  returnDate : Int
deriving DecidableEq, Repr

/-- `validateInput(returnProcessSchema, body)`: `dnItemId` must be a UUID,
`returnedQuantity` an integer that is positive and at most 10000,
`returnDate` a datetime string. -/
def validateReturnProcess (b : RawReturnBody) : Option ReturnData :=
  if b.dnItemIdIsUuid && decide (0 < b.returnedQuantity) &&
      decide (b.returnedQuantity ≤ 10000) && b.returnDateIsDatetime then
    some { dnItemId := b.dnItemId, returnedQuantity := b.returnedQuantity,
           returnDate := b.returnDate }
  else
    none

/-- `.update({...}).eq('id', id)`: rewrite every row whose key matches. -/
def updateTable {α : Type} (table : List (String × α)) (id : String) (f : α → α) :
    List (String × α) :=
  table.map (fun row => if row.1 == id then (row.1, f row.2) else row)

/-- The column rewrite performed by the `dn_items` update of
process-return.ts (lines 84-92). -/
def updateDnItemRow (newQ : Int) (returnDate : Int) (newStatus : DnItemStatus)
    (row : DnItemRow) : DnItemRow :=
  { row with returned_quantity := newQ, returned_at := some returnDate,
             status := newStatus }

/-- The `data` object of the 200 response of process-return.ts
(lines 122-131). -/
structure ReturnPayload where
  id : String
  status : DnItemStatus
  returned_quantity : Int
  remaining_quantity : Int
deriving DecidableEq, Repr

/-- A handler run: the HTTP status, the store after the run, and the
success payload when the status is 200. -/
structure HandlerResult where
  status : Nat
  store : Store
  payload : Option ReturnPayload
deriving DecidableEq, Repr

/-- The process-return handler (netlify/functions/process-return.ts),
stage by stage in source order: method gate, token extraction,
`authenticateUser`, the role gate `checkUserRole(uid, ['admin','manager'])`,
input validation, `checkDeliveryNoteItemAccess`, the item fetch, the
over-return and date business checks, the `dn_items` update (`updateOk`
models the update query failing, line 94), and the best-effort audit
insert (`auditOk` models the insert throwing, lines 100-120). -/
def handler (s : Store) (method : String) (authToken : Option String)
    (g : GetUserResult) (body : RawReturnBody) (updateOk auditOk : Bool) :
    HandlerResult :=
  if method ≠ "POST" then { status := 405, store := s, payload := none }
  else match authToken with
  | none => { status := 401, store := s, payload := none }
  | some _ =>
    let auth := authenticateUser g
    match auth.success, auth.user with
    | true, some uid =>
      if ! checkUserRole s uid [Role.admin, Role.manager] then
        { status := 403, store := s, payload := none }
      else match validateReturnProcess body with
      | none => { status := 400, store := s, payload := none }
      | some v =>
        if ! checkDeliveryNoteItemAccess s uid v.dnItemId then
          { status := 403, store := s, payload := none }
        else match lookupSingle s.dn_items v.dnItemId with
        | none => { status := 404, store := s, payload := none }
        | some item =>
          let newQ := item.returned_quantity + v.returnedQuantity
          if newQ > item.delivered_quantity then
            { status := 400, store := s, payload := none }
          else if v.returnDate < item.created_at then
            { status := 400, store := s, payload := none }
          else
            let newStatus :=
              if item.delivered_quantity ≤ newQ then DnItemStatus.fully_returned
              else DnItemStatus.partial_return
            if ! updateOk then { status := 500, store := s, payload := none }
            else
              let newItems :=
                updateTable s.dn_items v.dnItemId
                  (updateDnItemRow newQ v.returnDate newStatus)
              let s1 : Store := { s with dn_items := newItems }
              let s2 : Store :=
                if auditOk then
                  { s1 with audit_logs := s1.audit_logs ++
                      [{ user_id := uid, action := "RETURN_PROCESSED",
                         table_name := "dn_items", record_id := v.dnItemId }] }
                else s1
              { status := 200, store := s2,
                payload := some
                  { id := v.dnItemId, status := newStatus,
                    returned_quantity := newQ,
                    remaining_quantity := item.delivered_quantity - newQ } }
    | _, _ => { status := 401, store := s, payload := none }

/-- `checkUserRole` instrumented with the list of tables its
`.from(...)` calls hit: a single query on `users`. -/
def checkUserRoleT (s : Store) (userId : String) (rs : List Role) :
    Bool × List String :=
  (checkUserRole s userId rs, ["users"])

/-- `checkProjectAccess` instrumented with its query trace: the `users`
role query, then (unless the role check already granted access) one query
on `projects`. -/
def checkProjectAccessT (s : Store) (uid pid : String) : Bool × List String :=
  let r := checkUserRoleT s uid [Role.admin, Role.manager]
  if r.1 then (true, r.2)
  else
    match lookupSingle s.projects pid with
    | some project => (project.created_by == uid, r.2 ++ ["projects"])
    | none => (false, r.2 ++ ["projects"])

/-- `checkPurchaseOrderAccess` instrumented with its query trace: one query
on `purchase_orders`, then the project-level trace. -/
def checkPurchaseOrderAccessT (s : Store) (uid poId : String) :
    Bool × List String :=
  match lookupSingle s.purchase_orders poId with
  | some po =>
      let r := checkProjectAccessT s uid po.project_id
      (r.1, "purchase_orders" :: r.2)
  | none => (false, ["purchase_orders"])

/-- `checkDeliveryNoteItemAccess` instrumented with its query trace: the
source issues a single query, on `dn_items` (with the
`delivery_notes!inner` join embedded in its select), and then delegates
directly to `checkPurchaseOrderAccess` — there is no standalone
`delivery_notes` query and no delivery-note-level check function. -/
def checkDeliveryNoteItemAccessT (s : Store) (uid dnItemId : String) :
    Bool × List String :=
  match dnItemJoinQuery s dnItemId with
  | some poId =>
      let r := checkPurchaseOrderAccessT s uid poId
      (r.1, "dn_items" :: r.2)
  | none => (false, ["dn_items"])

/-- Modelled from the spec: the delivery-note-level check described in spec
section 4.3 ("resolves the DN's purchase_order_id, then delegates to the
PO-level check").  No such function exists in the source; `auth-utils.ts`
has no delivery-note-level check. -/
def checkDeliveryNoteAccessSpecT (s : Store) (uid dnId : String) :
    Bool × List String :=
  match lookupSingle s.delivery_notes dnId with
  | some dn =>
      let r := checkPurchaseOrderAccessT s uid dn.purchase_order_id
      (r.1, "delivery_notes" :: r.2)
  | none => (false, ["delivery_notes"])

/-- Modelled from the spec: the item-level check as spec section 4.3
describes it — "resolves the item's delivery_note_id, then delegates to
the DN-level check", each level one lookup then one recursive call. -/
def checkDeliveryNoteItemAccessSpecT (s : Store) (uid dnItemId : String) :
    Bool × List String :=
  match lookupSingle s.dn_items dnItemId with
  | some item =>
      let r := checkDeliveryNoteAccessSpecT s uid item.delivery_note_id
      (r.1, "dn_items" :: r.2)
  | none => (false, ["dn_items"])

/-- A store holding a single admin principal and nothing else; the concrete
input on which the application-level and storage-level project checks
disagree about nonexistent projects. -/
def adminOnlyStore : Store :=
  { users := [("a1", Role.admin)], projects := [], purchase_orders := [],
    delivery_notes := [], dn_items := [], audit_logs := [] }

/-- The delivery-note item `I1` of the scenario store: 10 delivered, 2
already returned. -/
def itemI1 : DnItemRow :=
  { delivery_note_id := "D1", delivered_quantity := 10, returned_quantity := 2,
    status := DnItemStatus.delivered, created_at := 0, returned_at := none }

/-- The scenario of spec section 8: `u1` (role `user`) created project `P1`
with the chain `PO1` → `D1` → `I1`; `u2` (role `user`) did not create `P1`;
`m1` is a manager. -/
def scenarioStore : Store :=
  { users := [("u1", Role.user), ("u2", Role.user), ("m1", Role.manager)],
    projects := [("P1", { created_by := "u1" })],
    purchase_orders := [("PO1", { project_id := "P1" })],
    delivery_notes := [("D1", { purchase_order_id := "PO1" })],
    dn_items := [("I1", itemI1)],
    audit_logs := [] }

/-- A well-formed process-return request body for the item `I1`: return 3
of the 10 delivered units on day 5. -/
def sampleBody : RawReturnBody :=
  { dnItemId := "I1", dnItemIdIsUuid := true, returnedQuantity := 3,
    returnDate := 5, returnDateIsDatetime := true }

theorem lookupSingle_mem {α : Type} {t : List (String × α)} {id : String} {v : α}
    (h : lookupSingle t id = some v) : (id, v) ∈ t := by
  unfold lookupSingle at h
  rcases hf : t.filter (fun row => row.1 == id) with _ | ⟨row, rest⟩
  · rw [hf] at h; cases h
  · rcases rest with _ | ⟨row2, rest2⟩
    · rw [hf] at h
      have hmem : row ∈ t.filter (fun row => row.1 == id) := by
        rw [hf]; exact List.mem_singleton.mpr rfl
      obtain ⟨hmt, hkey⟩ := List.mem_filter.mp hmem
      rcases row with ⟨k, w⟩
      have hk : k = id := by simpa using hkey
      have hw : w = v := by simpa using h
      subst hk; subst hw; exact hmt
    · rw [hf] at h; cases h

theorem mem_lookupSingle {α : Type} {t : List (String × α)} {id : String} {v : α}
    (hnd : (t.map Prod.fst).Nodup) (h : (id, v) ∈ t) : lookupSingle t id = some v := by
  induction t with
  | nil => cases h
  | cons hd tl ih =>
    rw [List.map_cons, List.nodup_cons] at hnd
    obtain ⟨hhd, htl⟩ := hnd
    rcases List.mem_cons.mp h with heq | hmem
    · subst heq
      unfold lookupSingle
      rw [List.filter_cons]
      have hfe : tl.filter (fun row => row.1 == id) = [] := by
        rw [List.filter_eq_nil_iff]
        intro a ha hpa
        have hak : a.1 = id := by simpa using hpa
        exact hhd (by simpa [hak] using List.mem_map_of_mem Prod.fst ha)
      simp [hfe]
    · have hid : id ∈ tl.map Prod.fst := by
        simpa using List.mem_map_of_mem Prod.fst hmem
      have hne : (hd.1 == id) = false := by
        simp only [beq_eq_false_iff_ne, ne_eq]
        intro hcontr; exact hhd (hcontr ▸ hid)
      unfold lookupSingle at ih ⊢
      rw [List.filter_cons, hne]
      simpa using ih htl hmem

theorem lookupSingle_updateTable {α : Type} (t : List (String × α)) (id : String)
    (f : α → α) :
    lookupSingle (updateTable t id f) id = (lookupSingle t id).map f := by
  have hfil : (updateTable t id f).filter (fun row => row.1 == id) =
      (t.filter (fun row => row.1 == id)).map (fun row => (row.1, f row.2)) := by
    unfold updateTable
    induction t with
    | nil => rfl
    | cons hd tl ih =>
      by_cases hc : hd.1 = id
      · simpa [List.filter_cons, hc] using ih
      · simpa [List.filter_cons, hc] using ih
  unfold lookupSingle
  rw [hfil]
  generalize t.filter (fun row => row.1 == id) = l
  rcases l with _ | ⟨row, rest⟩
  · rfl
  · rcases rest with _ | ⟨row2, rest2⟩ <;> rfl

theorem checkProjectAccessT_fst (s : Store) (uid pid : String) :
    (checkProjectAccessT s uid pid).1 = checkProjectAccess s uid pid := by
  cases hl : lookupSingle s.projects pid <;>
    cases h : checkUserRole s uid [Role.admin, Role.manager] <;>
      simp [checkProjectAccessT, checkProjectAccess, checkUserRoleT, h, hl]

theorem checkPurchaseOrderAccessT_fst (s : Store) (uid poId : String) :
    (checkPurchaseOrderAccessT s uid poId).1 = checkPurchaseOrderAccess s uid poId := by
  cases hl : lookupSingle s.purchase_orders poId <;>
    simp [checkPurchaseOrderAccessT, checkPurchaseOrderAccess, hl,
      checkProjectAccessT_fst]

theorem checkProjectAccess_true_iff (s : Store) (p x : String) (r : Role)
    (row : ProjectRow) (hu : lookupSingle s.users p = some r)
    (hx : lookupSingle s.projects x = some row) :
    checkProjectAccess s p x = true ↔
      r = Role.admin ∨ r = Role.manager ∨ row.created_by = p := by
  unfold checkProjectAccess checkUserRole
  rw [hu, hx]
  cases r <;> simp [queryOf, checkUserRoleResult]

theorem can_access_project_true_iff (s : Store) (uid pid : String) (r : Role)
    (row : ProjectRow)
    (hndU : (s.users.map Prod.fst).Nodup) (hndP : (s.projects.map Prod.fst).Nodup)
    (hu : lookupSingle s.users uid = some r)
    (hx : lookupSingle s.projects pid = some row) :
    can_access_project s uid pid = true ↔
      row.created_by = uid ∨ r = Role.admin ∨ r = Role.manager := by
  unfold can_access_project
  simp only [List.any_eq_true, Bool.and_eq_true, Bool.or_eq_true, beq_iff_eq]
  constructor
  · rintro ⟨pr, hprmem, hpid, u, humem, huid, hcond⟩
    have hprval : pr.2 = row := by
      have hmem2 : (pid, pr.2) ∈ s.projects := by
        rcases pr with ⟨a, b⟩; cases hpid; exact hprmem
      have := mem_lookupSingle hndP hmem2
      rw [this] at hx; exact Option.some.inj hx
    have huval : u.2 = r := by
      have hmem2 : (uid, u.2) ∈ s.users := by
        rcases u with ⟨a, b⟩; cases huid; exact humem
      have := mem_lookupSingle hndU hmem2
      rw [this] at hu; exact Option.some.inj hu
    rw [hprval, huval] at hcond
    exact hcond
  · intro h
    exact ⟨(pid, row), lookupSingle_mem hx, rfl, (uid, r), lookupSingle_mem hu, rfl, h⟩

/-- C1: for every principal `p` that exists in the store with role `r` and
every project `x` that exists in the store, `checkProjectAccess` returns
true if and only if `r` is admin or manager or `x`'s `created_by` equals
`p` — true for every admin/manager regardless of ownership, false for a
role-user principal who did not create `x`. -/
theorem C1_checkProjectAccess_iff (s : Store) (p x : String) (r : Role)
    (row : ProjectRow) (hu : lookupSingle s.users p = some r)
    (hx : lookupSingle s.projects x = some row) :
    checkProjectAccess s p x = true ↔
      r = Role.admin ∨ r = Role.manager ∨ row.created_by = p :=
  checkProjectAccess_true_iff s p x r row hu hx

theorem C1_witness :
    (checkProjectAccess scenarioStore "u1" "P1" = true ↔
      Role.user = Role.admin ∨ Role.user = Role.manager ∨
        (ProjectRow.mk "u1").created_by = "u1") ∧
    checkProjectAccess scenarioStore "u1" "P1" = true :=
  ⟨C1_checkProjectAccess_iff scenarioStore "u1" "P1" Role.user (ProjectRow.mk "u1")
      rfl rfl,
   by decide⟩

/-- C2 counterexample: an admin principal together with a project id that
does not exist in the store — `checkProjectAccess` returns true (the
admin/manager role check short-circuits before the project lookup), so the
claim that every access check returns false on a nonexistent id for
principals of any role is false. -/
theorem C2_counterexample :
    lookupSingle adminOnlyStore.projects "nope" = none ∧
    checkProjectAccess adminOnlyStore "a1" "nope" = true := by decide

/-- C2 (amended): on a nonexistent PO id or DN-item id every access check
returns false for every principal; on a nonexistent project id the
project-level check returns false for every principal that does not pass
the admin/manager role check (an admin or manager gets true without the
lookup).  All checks are total — every failure path yields false, never an
exception. -/
theorem C2_missing_id_fail_closed (s : Store) (p pid poId itemId : String) :
    (checkUserRole s p [Role.admin, Role.manager] = false →
      lookupSingle s.projects pid = none → checkProjectAccess s p pid = false) ∧
    (lookupSingle s.purchase_orders poId = none →
      checkPurchaseOrderAccess s p poId = false) ∧
    (lookupSingle s.dn_items itemId = none →
      checkDeliveryNoteItemAccess s p itemId = false) := by
  refine ⟨?_, ?_, ?_⟩
  · intro hrole hmiss
    simp [checkProjectAccess, hrole, hmiss]
  · intro hmiss
    simp [checkPurchaseOrderAccess, hmiss]
  · intro hmiss
    simp [checkDeliveryNoteItemAccess, dnItemJoinQuery, hmiss]

theorem C2_witness :
    checkProjectAccess scenarioStore "u2" "nope" = false ∧
    checkPurchaseOrderAccess scenarioStore "u2" "nope" = false ∧
    checkDeliveryNoteItemAccess scenarioStore "u2" "nope" = false :=
  ⟨(C2_missing_id_fail_closed scenarioStore "u2" "nope" "nope" "nope").1
      (by decide) (by decide),
   (C2_missing_id_fail_closed scenarioStore "u2" "nope" "nope" "nope").2.1 (by decide),
   (C2_missing_id_fail_closed scenarioStore "u2" "nope" "nope" "nope").2.2 (by decide)⟩

/-- C3: transitivity — if the project-level check denies `p` on `proj`,
then the PO-level check denies every purchase order whose `project_id` is
`proj`, and the item-level check denies every delivery-note item whose
parent chain (delivery note → purchase order) resolves to `proj`. -/
theorem C3_access_transitive (s : Store) (p proj : String) :
    (∀ poId po, lookupSingle s.purchase_orders poId = some po →
      po.project_id = proj → checkProjectAccess s p proj = false →
      checkPurchaseOrderAccess s p poId = false) ∧
    (∀ itemId item dn po, lookupSingle s.dn_items itemId = some item →
      lookupSingle s.delivery_notes item.delivery_note_id = some dn →
      lookupSingle s.purchase_orders dn.purchase_order_id = some po →
      po.project_id = proj → checkProjectAccess s p proj = false →
      checkDeliveryNoteItemAccess s p itemId = false) := by
  constructor
  · intro poId po hpo hproj hfalse
    simp only [checkPurchaseOrderAccess, hpo, hproj]
    exact hfalse
  · intro itemId item dn po hitem hdn hpo hproj hfalse
    simp only [checkDeliveryNoteItemAccess, dnItemJoinQuery, hitem, hdn,
      Option.map_some']
    simp only [checkPurchaseOrderAccess, hpo, hproj]
    exact hfalse

theorem C3_witness :
    checkPurchaseOrderAccess scenarioStore "u2" "PO1" = false ∧
    checkDeliveryNoteItemAccess scenarioStore "u2" "I1" = false :=
  ⟨(C3_access_transitive scenarioStore "u2" "P1").1 "PO1"
      (PurchaseOrderRow.mk "P1") rfl rfl (by decide),
   (C3_access_transitive scenarioStore "u2" "P1").2 "I1" itemI1
      (DeliveryNoteRow.mk "PO1") (PurchaseOrderRow.mk "P1")
      rfl rfl rfl rfl (by decide)⟩

/-- C6: `checkUserRole` returns true exactly when the principal record
exists and its role is in the required set; an error result (record
missing or store error) or a thrown lookup both evaluate to false, never
an exception. -/
theorem C6_checkUserRole_iff (s : Store) (userId : String) (roles : List Role)
    (hne : roles ≠ []) :
    (checkUserRole s userId roles = true ↔
      ∃ r, lookupSingle s.users userId = some r ∧ r ∈ roles) ∧
    (∀ msg, checkUserRoleResult (QueryResult.errorResult msg) roles = false ∧
      checkUserRoleResult (QueryResult.thrown msg) roles = false) := by
  constructor
  · unfold checkUserRole
    cases h : lookupSingle s.users userId with
    | none => simp [queryOf, checkUserRoleResult]
    | some r => simp [queryOf, checkUserRoleResult]
  · intro msg
    exact ⟨rfl, rfl⟩

theorem C6_witness :
    (checkUserRole scenarioStore "m1" [Role.admin, Role.manager] = true ↔
      ∃ r, lookupSingle scenarioStore.users "m1" = some r ∧
        r ∈ [Role.admin, Role.manager]) ∧
    checkUserRole scenarioStore "m1" [Role.admin, Role.manager] = true :=
  ⟨(C6_checkUserRole_iff scenarioStore "m1" [Role.admin, Role.manager]
      (by decide)).1,
   by decide⟩

/-- C7: every `authenticateUser` result has exactly one of its two output
fields populated — on success the user is non-null and the error null, on
every failure (error result, missing user, or thrown call) the user is
null and the error is a non-null message. -/
theorem C7_authenticateUser_exclusive (g : GetUserResult) :
    ((authenticateUser g).success = true →
      (authenticateUser g).user.isSome = true ∧ (authenticateUser g).error = none) ∧
    ((authenticateUser g).success = false →
      (authenticateUser g).user = none ∧ (authenticateUser g).error.isSome = true) := by
  cases g with
  | returned e u => cases e <;> cases u <;> simp [authenticateUser]
  | threw => simp [authenticateUser]

theorem C7_witness :
    ((authenticateUser (GetUserResult.returned none (some "u1"))).user.isSome = true ∧
      (authenticateUser (GetUserResult.returned none (some "u1"))).error = none) ∧
    ((authenticateUser GetUserResult.threw).user = none ∧
      (authenticateUser GetUserResult.threw).error.isSome = true) :=
  ⟨(C7_authenticateUser_exclusive (GetUserResult.returned none (some "u1"))).1 rfl,
   (C7_authenticateUser_exclusive GetUserResult.threw).2 rfl⟩

/-- C4 counterexample: on the scenario store, the source's item-level check
issues a single `dn_items` query (with the `delivery_notes!inner` join
embedded) and then delegates directly to the PO-level check, so its query
trace has no standalone `delivery_notes` step and differs from the trace of
the spec's item → delivery-note → PO chain. -/
theorem C4_counterexample :
    (checkDeliveryNoteItemAccessT scenarioStore "u2" "I1").2 =
      ["dn_items", "purchase_orders", "users", "projects"] ∧
    (checkDeliveryNoteItemAccessSpecT scenarioStore "u2" "I1").2 =
      ["dn_items", "delivery_notes", "purchase_orders", "users", "projects"] ∧
    (checkDeliveryNoteItemAccessT scenarioStore "u2" "I1").2 ≠
      (checkDeliveryNoteItemAccessSpecT scenarioStore "u2" "I1").2 := by decide

/-- C4 (amended): the delivery-note-item-level check resolves its delivery
note's `purchase_order_id` in one joined query and delegates directly to
the purchase-order-level check — there is no delivery-note-level check in
the source — and its boolean result agrees with the spec's
item → delivery-note → PO chain on every store. -/
theorem C4_dnItemAccess_eq_specChain (s : Store) (uid dnItemId : String) :
    checkDeliveryNoteItemAccess s uid dnItemId =
      (checkDeliveryNoteItemAccessSpecT s uid dnItemId).1 := by
  unfold checkDeliveryNoteItemAccess dnItemJoinQuery checkDeliveryNoteItemAccessSpecT
  cases hitem : lookupSingle s.dn_items dnItemId with
  | none => rfl
  | some item =>
    unfold checkDeliveryNoteAccessSpecT
    cases hdn : lookupSingle s.delivery_notes item.delivery_note_id with
    | none => simp [hdn]
    | some dn => simp [hdn, checkPurchaseOrderAccessT_fst]

/-- C9 counterexample: on a store with one admin principal and no
projects, the application-level check returns true on a nonexistent
project id while the storage-side predicate returns false, so the two
predicates are not logically equivalent over every store state. -/
theorem C9_counterexample :
    checkProjectAccess adminOnlyStore "a1" "nope" = true ∧
    can_access_project adminOnlyStore "a1" "nope" = false := by decide

/-- C9 (amended): the storage-side `can_access_project` and the
application-level `checkProjectAccess` agree whenever the principal exists
in `users` and the project exists in `projects` (with primary keys
unique); they diverge on nonexistent project ids for admin/manager
principals, where the application short-circuits to true and the SQL
EXISTS is false. -/
theorem C9_checkProjectAccess_eq_can_access_project (s : Store)
    (uid pid : String) (r : Role) (row : ProjectRow)
    (hndU : (s.users.map Prod.fst).Nodup)
    (hndP : (s.projects.map Prod.fst).Nodup)
    (hu : lookupSingle s.users uid = some r)
    (hx : lookupSingle s.projects pid = some row) :
    checkProjectAccess s uid pid = can_access_project s uid pid := by
  rw [Bool.eq_iff_iff, checkProjectAccess_true_iff s uid pid r row hu hx,
    can_access_project_true_iff s uid pid r row hndU hndP hu hx]
  tauto

theorem C9_witness :
    checkProjectAccess scenarioStore "u1" "P1" =
      can_access_project scenarioStore "u1" "P1" :=
  C9_checkProjectAccess_eq_can_access_project scenarioStore "u1" "P1"
    Role.user (ProjectRow.mk "u1") (by decide) (by decide) rfl rfl

/-- C5: the process-return handler answers 403 with the store unmutated for
every authenticated principal whose role is neither admin nor manager — in
particular for every role-user principal, even one who created the parent
project; only admins and managers pass the role gate. -/
theorem C5_processReturn_role_gate (s : Store) (tok : String) (g : GetUserResult)
    (b : RawReturnBody) (updateOk auditOk : Bool) (uid : String) (r : Role)
    (hsucc : (authenticateUser g).success = true)
    (huser : (authenticateUser g).user = some uid)
    (hrole : lookupSingle s.users uid = some r)
    (hadmin : r ≠ Role.admin) (hmanager : r ≠ Role.manager) :
    handler s "POST" (some tok) g b updateOk auditOk =
      { status := 403, store := s, payload := none } := by
  have hur : checkUserRole s uid [Role.admin, Role.manager] = false := by
    unfold checkUserRole
    rw [hrole]
    cases r
    · exact absurd rfl hadmin
    · exact absurd rfl hmanager
    · rfl
  unfold handler
  simp [hsucc, huser, hur]

theorem C5_witness :
    handler scenarioStore "POST" (some "t")
        (GetUserResult.returned none (some "u1")) sampleBody true true =
      { status := 403, store := scenarioStore, payload := none } :=
  C5_processReturn_role_gate scenarioStore "t"
    (GetUserResult.returned none (some "u1")) sampleBody true true "u1"
    Role.user rfl rfl rfl (by decide) (by decide)

set_option maxHeartbeats 2000000 in
/-- C8: a failure of the audit-log insert does not change the handler's
outcome — the status, the response payload, and the dn_items table (so in
particular an already-applied update) are identical to a run in which the
audit insert succeeds; only the audit_logs table can differ. -/
theorem C8_audit_best_effort (s : Store) (method : String) (tok : Option String)
    (g : GetUserResult) (b : RawReturnBody) (updateOk : Bool) :
    (handler s method tok g b updateOk false).status =
      (handler s method tok g b updateOk true).status ∧
    (handler s method tok g b updateOk false).payload =
      (handler s method tok g b updateOk true).payload ∧
    (handler s method tok g b updateOk false).store.dn_items =
      (handler s method tok g b updateOk true).store.dn_items := by
  unfold handler
  cases g with
  | returned e u =>
      cases e <;> cases u <;> simp only [authenticateUser] <;> (repeat' split) <;>
        first | rfl | (exact ⟨rfl, rfl, rfl⟩) | contradiction | simp_all | simp
  | threw =>
      simp only [authenticateUser] <;> (repeat' split) <;>
        first | rfl | (exact ⟨rfl, rfl, rfl⟩) | contradiction | simp_all | simp

/-- C10: once a process-return request reaches the business check
(authenticated admin/manager, valid body, access granted, item found),
an over-return request with r + q > d is rejected with 400 and the store
is unchanged; otherwise, with a return date not before the item's
creation, the run answers 200, stores returned_quantity r + q with status
fully_returned exactly when r + q ≥ d (else partial_return), and reports
remaining_quantity d − (r + q). -/
theorem C10_processReturn_postcondition (s : Store) (tok : String)
    (g : GetUserResult) (b : RawReturnBody) (auditOk : Bool) (uid : String)
    (v : ReturnData) (item : DnItemRow)
    (hsucc : (authenticateUser g).success = true)
    (huser : (authenticateUser g).user = some uid)
    (hrole : checkUserRole s uid [Role.admin, Role.manager] = true)
    (hval : validateReturnProcess b = some v)
    (hacc : checkDeliveryNoteItemAccess s uid v.dnItemId = true)
    (hitem : lookupSingle s.dn_items v.dnItemId = some item) :
    (item.delivered_quantity < item.returned_quantity + v.returnedQuantity →
      ∀ updateOk, handler s "POST" (some tok) g b updateOk auditOk =
        { status := 400, store := s, payload := none }) ∧
    (item.returned_quantity + v.returnedQuantity ≤ item.delivered_quantity →
      item.created_at ≤ v.returnDate →
      (handler s "POST" (some tok) g b true auditOk).status = 200 ∧
      (handler s "POST" (some tok) g b true auditOk).payload =
        some { id := v.dnItemId,
               status :=
                 if item.delivered_quantity ≤
                     item.returned_quantity + v.returnedQuantity then
                   DnItemStatus.fully_returned
                 else DnItemStatus.partial_return,
               returned_quantity := item.returned_quantity + v.returnedQuantity,
               remaining_quantity := item.delivered_quantity -
                 (item.returned_quantity + v.returnedQuantity) } ∧
      lookupSingle
          (handler s "POST" (some tok) g b true auditOk).store.dn_items
          v.dnItemId =
        some { item with
               returned_quantity := item.returned_quantity + v.returnedQuantity,
               returned_at := some v.returnDate,
               status :=
                 if item.delivered_quantity ≤
                     item.returned_quantity + v.returnedQuantity then
                   DnItemStatus.fully_returned
                 else DnItemStatus.partial_return }) := by
  constructor
  · intro hover updateOk
    unfold handler
    simp [hsucc, huser, hrole, hval, hacc, hitem, hover]
  · intro hle hdate
    have h1 : ¬ item.returned_quantity + v.returnedQuantity >
        item.delivered_quantity := not_lt.mpr hle
    have h2 : ¬ v.returnDate < item.created_at := not_lt.mpr hdate
    cases auditOk <;>
      simp [handler, hsucc, huser, hrole, hval, hacc, hitem, h1, h2,
        lookupSingle_updateTable, updateDnItemRow]

theorem C10_witness :
    (handler scenarioStore "POST" (some "t")
        (GetUserResult.returned none (some "m1")) sampleBody true true).status = 200 ∧
    (handler scenarioStore "POST" (some "t")
        (GetUserResult.returned none (some "m1")) sampleBody true true).payload =
      some (ReturnPayload.mk "I1" DnItemStatus.partial_return 5 5) ∧
    lookupSingle
        (handler scenarioStore "POST" (some "t")
          (GetUserResult.returned none (some "m1")) sampleBody true true).store.dn_items
        "I1" =
      some (DnItemRow.mk "D1" 10 5 DnItemStatus.partial_return 0 (some 5)) := by
  have h := (C10_processReturn_postcondition scenarioStore "t"
    (GetUserResult.returned none (some "m1")) sampleBody true "m1"
    (ReturnData.mk "I1" 3 5) itemI1 rfl rfl (by decide) (by decide)
    (by decide) (by decide)).2 (by decide) (by decide)
  exact ⟨h.1, by simpa using h.2.1, by simpa [itemI1] using h.2.2⟩
